import Mathlib

/-
Verification of the caption-timing and video-composition engine of the
XTTS_FastAPI repository (src/ffmpeg.py), against its natural-language
specification.

Shallow embedding conventions:
- Python floats carrying time values are modelled as rationals (ℚ); Python
  `int(x)` on a non-negative value is `Int.floor` followed by `toNat`, and
  Python's float `%` is floor-based remainder (`pymod` below).
- Python `str.split()` (no separator) splits on whitespace and drops empty
  fragments.
- Python exceptions are the explicit `PyError` sum type; functions that can
  raise return `Except PyError α`.
- The filesystem and the clock are an explicit `World`; `random.choice` is
  given an oracle index; file creation/removal threads an explicit list of
  existing file names.
-/

/-- One subtitle entry, as built by `_generate_auto_subtitles` /
consumed by `_generate_subtitles_from_list` in src/ffmpeg.py: a dict with
keys `text`, `start`, `end`.  (`end` is a Lean keyword, rendered `endTime`.) -/
structure Cue where
  start : ℚ
  endTime : ℚ
  text : String
deriving DecidableEq, Repr

/-- Accumulating scanner behind `pySplit`: `cur` holds the characters of the
word in progress, reversed. -/
def pySplitAux : List Char → List Char → List String
  | [], cur => if cur.isEmpty then [] else [String.mk cur.reverse]
  | c :: rest, cur =>
    if c.isWhitespace then
      if cur.isEmpty then pySplitAux rest []
      else String.mk cur.reverse :: pySplitAux rest []
    else pySplitAux rest (c :: cur)

/-- Python `text.split()` with no separator: split on runs of whitespace,
dropping empty fragments (so a whitespace-only string yields `[]`). -/
def pySplit (s : String) : List String :=
  pySplitAux s.data []

/-- The word list of `_generate_auto_subtitles` (src/ffmpeg.py lines 95-97):
`words = text.split(); if not words: words = [""]`. -/
def autoWords (text : String) : List String :=
  if (pySplit text).isEmpty then [""] else pySplit text

/-- The cue list computed by `_generate_auto_subtitles` (src/ffmpeg.py lines
94-109) before serialization: `time_per_word = audio_duration / len(words)`,
and word `i` (0-based) gets the interval
`[i * time_per_word, (i+1) * time_per_word)`. -/
def autoCues (text : String) (audio_duration : ℚ) : List Cue :=
  (autoWords text).enum.map fun p =>
    { start := (p.1 : ℚ) * (audio_duration / ((autoWords text).length : ℚ))
      endTime := ((p.1 : ℚ) + 1) * (audio_duration / ((autoWords text).length : ℚ))
      text := p.2 }

/-! ### SRT clock rendering (src/ffmpeg.py lines 53-59) -/

/-- Python float `%` for positive modulus: floor-based remainder. -/
def pymod (a b : ℚ) : ℚ := a - b * (⌊a / b⌋ : ℚ)

/-- The four fields of the SRT clock `HH:MM:SS,mmm`. -/
structure SrtTime where
  hours : ℕ
  minutes : ℕ
  secs : ℕ
  millis : ℕ
deriving DecidableEq, Repr

/-- Embedding of `_format_srt_time` (src/ffmpeg.py lines 53-59), field by field:
`hours = int(seconds // 3600)`, `minutes = int((seconds % 3600) // 60)`,
`secs = int(seconds % 60)`, `millis = int((seconds % 1) * 1000)`.
On the non-negative inputs the program feeds it, Python `int()` is
`Int.floor` followed by `toNat`, and `a // b = floor (a / b)`. -/
def format_srt_time (seconds : ℚ) : SrtTime :=
  { hours := (⌊seconds / 3600⌋).toNat
    minutes := (⌊pymod seconds 3600 / 60⌋).toNat
    secs := (⌊pymod seconds 60⌋).toNat
    millis := (⌊pymod seconds 1 * 1000⌋).toNat }

/-- Zero-pad a decimal numeral to a given width, as Python `{n:02d}` /
`{n:03d}` do. -/
def padNum (width : ℕ) (n : ℕ) : String :=
  let s := toString n
  if s.length < width then String.mk (List.replicate (width - s.length) '0') ++ s
  else s

/-- The rendered clock string `HH:MM:SS,mmm` returned by `_format_srt_time`. -/
def renderSrtTime (t : SrtTime) : String :=
  padNum 2 t.hours ++ ":" ++ padNum 2 t.minutes ++ ":" ++ padNum 2 t.secs
    ++ "," ++ padNum 3 t.millis

/-- The inverse clock parser: read the four fields back into seconds. -/
def parseSrtTime (t : SrtTime) : ℚ :=
  (t.hours : ℚ) * 3600 + (t.minutes : ℚ) * 60 + (t.secs : ℚ)
    + (t.millis : ℚ) / 1000

/-- The clock fields determined by a total count of milliseconds. -/
def srtOfMillis (n : ℕ) : SrtTime :=
  { hours := n / 3600000
    minutes := n / 60000 % 60
    secs := n / 1000 % 60
    millis := n % 1000 }

/-! ### Style resolver (src/ffmpeg.py lines 169-216) -/

def modernStyle : String :=
  "Alignment=10,FontName=Arial Black,FontSize=24,Bold=1,PrimaryColour=&H00FFFFFF,OutlineColour=&H00000000,Outline=3,Shadow=2,MarginV=100"

def boldStyle : String :=
  "Alignment=10,FontName=Impact,FontSize=28,Bold=1,PrimaryColour=&H00FFFF00,OutlineColour=&H00000000,Outline=4,Shadow=3,MarginV=100"

def minimalStyle : String :=
  "Alignment=10,FontName=Helvetica,FontSize=22,Bold=1,PrimaryColour=&H00FFFFFF,OutlineColour=&H00000000,Outline=2,Shadow=1,MarginV=80"

def gamingStyle : String :=
  "Alignment=10,FontName=Arial Black,FontSize=26,Bold=1,PrimaryColour=&H0000FFFF,OutlineColour=&H00000000,Outline=3,Shadow=2,MarginV=120"

/-- Dictionary lookup `styles.get(subtitle_style, styles["modern"])` with
the `modern` entry as default (src/ffmpeg.py line 216). -/
def resolveStyle (subtitle_style : String) : String :=
  if subtitle_style = "modern" then modernStyle
  else if subtitle_style = "bold" then boldStyle
  else if subtitle_style = "minimal" then minimalStyle
  else if subtitle_style = "gaming" then gamingStyle
  else modernStyle

/-! ### SRT serialization (src/ffmpeg.py lines 62-87 and 101-112) -/

/-- One SRT block as written by both generators: index line, clock line,
text line, trailing newline. -/
def srtBlock (i : ℕ) (c : Cue) : String :=
  toString i ++ "\n" ++ renderSrtTime (format_srt_time c.start) ++ " --> "
    ++ renderSrtTime (format_srt_time c.endTime) ++ "\n" ++ c.text ++ "\n"

/-- Embedding of `_generate_subtitles_from_list` (src/ffmpeg.py lines 62-87): enumerate the
supplied cues from 1, format each block, join with a blank separator line, and
write the result.  The loop inspects only `sub.start`, `sub.end` and
`sub.text`; it contains no check of any kind, so every list is serialized. -/
def generate_subtitles_from_list (subtitles : List Cue) : String :=
  String.intercalate "\n" (subtitles.enum.map fun p => srtBlock (p.1 + 1) p.2)

/-- Modelled from the spec: the validation that §4.1 and §8 prescribe for an
explicit cue list and that src/ffmpeg.py nowhere implements — fail with a
validation error naming the offending (0-based) index when some cue has
`end <= start` or starts before the preceding cue's start (non-monotonic
ordering); accept otherwise. -/
def validateCuesSpecAux : ℕ → Option ℚ → List Cue → Except ℕ Unit
  | _, _, [] => .ok ()
  | i, prev, c :: rest =>
    if c.endTime ≤ c.start then .error i
    else
      match prev with
      | some p => if c.start < p then .error i
                  else validateCuesSpecAux (i + 1) (some c.start) rest
      | none => validateCuesSpecAux (i + 1) (some c.start) rest

/-- Modelled from the spec (see `validateCuesSpecAux`). -/
def validateCuesSpec (subtitles : List Cue) : Except ℕ Unit :=
  validateCuesSpecAux 0 none subtitles

/-! ### Filter graph (src/ffmpeg.py lines 218-246) -/

/-- Typed descriptor of one stage of the composed filter chain. -/
inductive Stage where
  | scale (w h : ℕ) (forceAspectIncrease : Bool)
  | crop (w h : ℕ)
  | zoompan (ceiling : ℚ) (frames : ℕ)
  | eqBrightness (brightness : ℚ)
  | format (pixfmt : String)
  | subtitles (srt_path force_style : String)
deriving DecidableEq, Repr

/-- The stage chain of the `filter_complex` string built at src/ffmpeg.py
lines 220-226, in the order the string chains them: aspect-preserving
scale-up to cover 1080x1920, center-crop to 1080x1920, brightness adjustment
`eq=brightness=-(1-background_opacity)*0.3`, pixel-format normalization
`format=yuv420p` (producing label [dimmed]), then caption burn-in
`subtitles=...` producing the final label [v].  No zoom stage is ever
emitted. -/
def filterStages (background_opacity : ℚ) (srt_path force_style : String) :
    List Stage :=
  [ Stage.scale 1080 1920 true
  , Stage.crop 1080 1920
  , Stage.eqBrightness (-((1 - background_opacity) * 3 / 10))
  , Stage.format "yuv420p"
  , Stage.subtitles srt_path force_style ]

/-- The textual `filter_complex` of lines 220-226, with the brightness value
abstracted to its rendered numeral. -/
def filter_complex (brightness_str srt_path force_style : String) : String :=
  "[0:v]scale=1080:1920:force_original_aspect_ratio=increase,crop=1080:1920,eq=brightness=-"
    ++ brightness_str ++ ",format=yuv420p[dimmed];[dimmed]subtitles="
    ++ srt_path ++ ":force_style=\x27" ++ force_style ++ "\x27[v]"

/-- Output label of the terminal filter stage (line 225). -/
def composedOutputLabel : String := "[v]"

/-- The stream label the encoder command maps to the output video:
`-map "[v]"` at line 235. -/
def mappedVideoLabel : String := "[v]"

/-- Modelled from the spec: the stage order §4.3 prescribes — scale, crop,
optional zoom (a push-in toward a 1.1x ceiling over `duration * 30` frames,
per §9's note on the frame-count formula), pixel-format normalization, then
brightness, then caption burn-in. -/
def filterStagesSpec (dim_factor : ℚ) (zoom_enabled : Bool) (duration : ℚ)
    (srt_path force_style : String) : List Stage :=
  [Stage.scale 1080 1920 true, Stage.crop 1080 1920]
    ++ (if zoom_enabled then [Stage.zoompan (11 / 10) ⌊duration * 30⌋₊] else [])
    ++ [ Stage.format "yuv420p"
       , Stage.eqBrightness (-((1 - dim_factor) * 3 / 10))
       , Stage.subtitles srt_path force_style ]

/-! ### Background selection (src/ffmpeg.py lines 14-32) -/

/-- The Python exception kinds the engine can raise. -/
inductive PyError where
  | fileNotFound (msg : String)
  | valueError (msg : String)
  | attributeError (msg : String)
  | calledProcessError (msg : String)
deriving DecidableEq, Repr

/-- The Python exception class of a `PyError` value. -/
def PyError.className : PyError → String
  | .fileNotFound _ => "FileNotFoundError"
  | .valueError _ => "ValueError"
  | .attributeError _ => "AttributeError"
  | .calledProcessError _ => "CalledProcessError"

/-- Character-level lowercasing, Python `f.lower()`. -/
def pyLower (s : String) : String :=
  String.mk (s.data.map Char.toLower)

/-- Python `str.endswith` on the character sequences. -/
def strEndsWith (s suf : String) : Bool :=
  suf.data.isSuffixOf s.data

/-- The candidate filter of line 22:
`f.lower().endswith((".mp4", ".mov", ".mkv"))`. -/
def isVideoFile (f : String) : Bool :=
  strEndsWith (pyLower f) ".mp4" || strEndsWith (pyLower f) ".mov"
    || strEndsWith (pyLower f) ".mkv"

/-- Embedding of `_pick_random_video` (src/ffmpeg.py lines 14-32).  `videoDirListing` is
`none` when the `videos` directory does not exist, otherwise the directory
listing; `rand` is the oracle deciding `random.choice` (reduced modulo the
candidate count).  Both failure branches raise `FileNotFoundError`, with
different messages. -/
def pick_random_video (videoDirListing : Option (List String)) (rand : ℕ) :
    Except PyError String :=
  match videoDirListing with
  | none =>
    .error (.fileNotFound "Video directory \x27videos\x27 does not exist.")
  | some files =>
    if (files.filter isVideoFile).isEmpty then
      .error (.fileNotFound "No video files found in \x27videos\x27.")
    else
      .ok ("videos/" ++ (files.filter isVideoFile).getD
        (rand % (files.filter isVideoFile).length) "")

/-! ### Composition orchestrator (src/ffmpeg.py lines 120-267) -/

deriving instance DecidableEq for Except

/-- The ambient state one `create_video_with_audio` call observes: whether
the fixed narration file `final.wav` exists, the listing of the `videos`
directory (`none` when the directory is missing), the `random.choice`
oracle, the outcome of the `ffprobe` duration probe, the second-resolution
wall clock `int(time.time())` read at line 154, and the outcome of the
`ffmpeg` invocation (`none` = success, `some msg` = the
`CalledProcessError` it raises). -/
structure World where
  audioExists : Bool
  videoDir : Option (List String)
  rand : ℕ
  probe : Except PyError ℚ
  now : ℕ
  encodeErr : Option String
deriving DecidableEq, Repr

/-- The name `os.path.join(OUTPUT_DIR, f"subtitles_{timestamp}.srt")` (lines 154-156):
the temporary caption file name, a function of the timestamp alone. -/
def srtPath (w : World) : String :=
  "outputs/subtitles_" ++ toString w.now ++ ".srt"

/-- The name `os.path.join(OUTPUT_DIR, f"final_{timestamp}.mp4")` (lines 165-166). -/
def outputPath (w : World) : String :=
  "outputs/final_" ++ toString w.now ++ ".mp4"

/-- The call `subprocess.run(cmd, check=True)` plus the success-path cleanup (lines
254-261): on success the srt file is removed inside the `try` body and the
output path returned; on failure the raised `CalledProcessError` leaves the
`try` body with the srt file still on disk. -/
def runEncoder (w : World) (files : List String) :
    Except PyError String × List String :=
  match w.encodeErr with
  | none => (.ok (outputPath w), (outputPath w :: files).erase (srtPath w))
  | some msg => (.error (.calledProcessError msg), files)

/-- The body of the `try` block of `create_video_with_audio` (lines 142-261),
returning the outcome together with the files existing when control leaves
the body.  `files0` is the set of files existing at entry.  The branch
structure follows the source: audio check, both-none check, background pick,
probe, then `if subtitles:` (truthy only for a non-empty list) choosing
between `_generate_subtitles_from_list` (which always writes the srt file)
and `_generate_auto_subtitles` (which raises `AttributeError` on
`text.split()` before writing anything when `text` is `None`). -/
def createBody (text : Option String) (subtitles : Option (List Cue))
    (w : World) (files0 : List String) : Except PyError String × List String :=
  if w.audioExists = false then
    (.error (.fileNotFound "Audio file \x27final.wav\x27 not found."), files0)
  else if text.isNone && subtitles.isNone then
    (.error (.valueError "Either \x27text\x27 or \x27subtitles\x27 must be provided."),
      files0)
  else
    match pick_random_video w.videoDir w.rand with
    | .error e => (.error e, files0)
    | .ok _video_path =>
      match w.probe with
      | .error e => (.error e, files0)
      | .ok _audio_duration =>
        match subtitles with
        | some (_ :: _) => runEncoder w (srtPath w :: files0)
        | _ =>
          match text with
          | none =>
            (.error (.attributeError
              "\x27NoneType\x27 object has no attribute \x27split\x27"), files0)
          | some _t => runEncoder w (srtPath w :: files0)

/-- Embedding of `create_video_with_audio` (lines 120-267): the `try` body wrapped in the
`except` handler of lines 262-267, which removes the srt file when it still
exists and re-raises the original exception unmodified.  (The
`subtitle_style` and `background_opacity` parameters only feed the filter
string — `resolveStyle` and `filterStages` — and never change control flow
or the file lifecycle, so they are not threaded through this state model.) -/
def create_video_with_audio (text : Option String)
    (subtitles : Option (List Cue)) (w : World) (files0 : List String) :
    Except PyError String × List String :=
  match createBody text subtitles w files0 with
  | (.ok p, files) => (.ok p, files)
  | (.error e, files) =>
    (.error e, if srtPath w ∈ files then files.erase (srtPath w) else files)

/-- Example world: audio present, one background clip, probe says 2 s,
clock second 111, encoder fails with diagnostic "boom". -/
def wBoom : World :=
  { audioExists := true, videoDir := some ["clip.mp4"], rand := 0,
    probe := .ok 2, now := 111, encodeErr := some "boom" }

/-- Example world: as `wBoom` but the encoder succeeds. -/
def wOk : World :=
  { audioExists := true, videoDir := some ["clip.mp4"], rand := 0,
    probe := .ok 2, now := 111, encodeErr := none }

/-- Example request state: one of two concurrent requests sharing the clock
second 1700000000. -/
def wReqA : World :=
  { audioExists := true, videoDir := some ["a.mp4"], rand := 0,
    probe := .ok 2, now := 1700000000, encodeErr := none }

/-- Example request state: a different concurrent request — different
listing, random draw, probe result and encoder outcome — in the same clock
second as `wReqA`. -/
def wReqB : World :=
  { audioExists := true, videoDir := some ["b.mp4"], rand := 1,
    probe := .ok 3, now := 1700000000, encodeErr := some "boom" }

/-- Example request state observing clock second 100. -/
def wT100 : World :=
  { audioExists := true, videoDir := some ["a.mp4"], rand := 0,
    probe := .ok 2, now := 100, encodeErr := none }

/-- Example request state: a distinct request in the same second as
`wT100`. -/
def wT100b : World :=
  { audioExists := true, videoDir := some ["b.mp4"], rand := 7,
    probe := .ok 3, now := 100, encodeErr := some "x" }

/-- Example request state observing clock second 101. -/
def wT101 : World :=
  { audioExists := true, videoDir := some ["a.mp4"], rand := 0,
    probe := .ok 2, now := 101, encodeErr := none }

/-! #### Arithmetic facts about the clock fields -/

lemma toNat_floor_div_nat (s : ℚ) (n : ℕ) :
    (⌊s / (n : ℚ)⌋).toNat = ⌊s⌋₊ / n := by
  rw [Int.floor_toNat, Nat.floor_div_nat]

lemma natFloor_eq_millis_div (s : ℚ) : ⌊s⌋₊ = ⌊1000 * s⌋₊ / 1000 := by
  have h := Nat.floor_div_nat (1000 * s) 1000
  rwa [show (1000 * s) / ((1000 : ℕ) : ℚ) = s by push_cast; ring] at h

set_option maxRecDepth 4000 in
/-- The formatter `_format_srt_time` depends on its input only through the total number of
elapsed milliseconds, truncated: on non-negative input it renders exactly the
fields of `⌊1000 * s⌋₊` milliseconds. -/
lemma format_srt_time_eq_srtOfMillis (s : ℚ) (hs : 0 ≤ s) :
    format_srt_time s = srtOfMillis ⌊1000 * s⌋₊ := by
  have h60 : (⌊s / 60⌋ : ℤ) = ((⌊1000 * s⌋₊ / 60000 : ℕ) : ℤ) := by
    rw [← Int.natCast_floor_eq_floor (by positivity)]
    rw [show s / 60 = s / ((60 : ℕ) : ℚ) by norm_num, Nat.floor_div_nat]
    rw [natFloor_eq_millis_div s, Nat.div_div_eq_div_mul]
  have h3600 : (⌊s / 3600⌋ : ℤ) = ((⌊1000 * s⌋₊ / 3600000 : ℕ) : ℤ) := by
    rw [← Int.natCast_floor_eq_floor (by positivity)]
    rw [show s / 3600 = s / ((3600 : ℕ) : ℚ) by norm_num, Nat.floor_div_nat]
    rw [natFloor_eq_millis_div s, Nat.div_div_eq_div_mul]
  have hfl : (⌊s⌋ : ℤ) = ((⌊1000 * s⌋₊ / 1000 : ℕ) : ℤ) := by
    rw [← Int.natCast_floor_eq_floor hs, natFloor_eq_millis_div s]
  have hms : (⌊1000 * s⌋ : ℤ) = ((⌊1000 * s⌋₊ : ℕ) : ℤ) :=
    (Int.natCast_floor_eq_floor (by positivity)).symm
  unfold format_srt_time srtOfMillis pymod
  have hmin : ⌊(s - 3600 * (⌊s / 3600⌋ : ℚ)) / 60⌋
      = ⌊s / 60⌋ - 60 * ⌊s / 3600⌋ := by
    rw [show (s - 3600 * (⌊s / 3600⌋ : ℚ)) / 60
          = s / 60 - ((60 * ⌊s / 3600⌋ : ℤ) : ℚ) by push_cast; ring]
    rw [Int.floor_sub_int]
  have hsec : ⌊s - 60 * (⌊s / 60⌋ : ℚ)⌋ = ⌊s⌋ - 60 * ⌊s / 60⌋ := by
    rw [show s - 60 * (⌊s / 60⌋ : ℚ) = s - ((60 * ⌊s / 60⌋ : ℤ) : ℚ) by
      push_cast; ring]
    rw [Int.floor_sub_int]
  have hmil : ⌊(s - 1 * (⌊s / 1⌋ : ℚ)) * 1000⌋ = ⌊1000 * s⌋ - 1000 * ⌊s⌋ := by
    rw [show (s - 1 * (⌊s / 1⌋ : ℚ)) * 1000
          = 1000 * s - ((1000 * ⌊s / 1⌋ : ℤ) : ℚ) by push_cast; ring]
    rw [Int.floor_sub_int, div_one]
  rw [hmin, hsec, hmil]
  simp only [SrtTime.mk.injEq]
  refine ⟨?_, ?_, ?_, ?_⟩ <;> omega

/-- Reading the fields of `srtOfMillis n` back gives exactly `n` milliseconds. -/
lemma parseSrtTime_srtOfMillis (n : ℕ) :
    parseSrtTime (srtOfMillis n) = (n : ℚ) / 1000 := by
  have h : (3600000 * (n / 3600000) + 60000 * (n / 60000 % 60)
      + 1000 * (n / 1000 % 60) + n % 1000 : ℕ) = n := by omega
  unfold parseSrtTime srtOfMillis
  conv_rhs => rw [← h]
  push_cast
  ring

/-- Formatting a whole number of milliseconds reproduces those fields. -/
lemma format_srt_time_millis (n : ℕ) :
    format_srt_time ((n : ℚ) / 1000) = srtOfMillis n := by
  rw [format_srt_time_eq_srtOfMillis _ (by positivity),
    show (1000 : ℚ) * ((n : ℚ) / 1000) = (n : ℚ) by ring, Nat.floor_natCast]

/-- C5: for every non-negative seconds value, `_format_srt_time` truncates:
parsing the rendered clock fields back gives a value that never exceeds the
input (never rounds up into the next millisecond or second), differs from it
by strictly less than one millisecond, and formatting that parsed value
reproduces the original clock fields (round-trip idempotence through the
inverse parser). -/
theorem C5_format_time_truncates_roundtrips (s : ℚ) (hs : 0 ≤ s) :
    format_srt_time (parseSrtTime (format_srt_time s)) = format_srt_time s
    ∧ parseSrtTime (format_srt_time s) ≤ s
    ∧ s - parseSrtTime (format_srt_time s) < 1 / 1000 := by
  have hA := format_srt_time_eq_srtOfMillis s hs
  have hparse : parseSrtTime (format_srt_time s) = (⌊1000 * s⌋₊ : ℚ) / 1000 := by
    rw [hA, parseSrtTime_srtOfMillis]
  refine ⟨?_, ?_, ?_⟩
  · rw [hparse, format_srt_time_millis, hA]
  · rw [hparse, div_le_iff₀ (by norm_num)]
    calc (⌊1000 * s⌋₊ : ℚ) ≤ 1000 * s := Nat.floor_le (by positivity)
      _ = s * 1000 := by ring
  · rw [hparse]
    have h2 : 1000 * s < ⌊1000 * s⌋₊ + 1 := Nat.lt_floor_add_one _
    have h3 : s < ((⌊1000 * s⌋₊ : ℚ) + 1) / 1000 := by
      rw [lt_div_iff₀ (by norm_num)]
      linarith
    linarith

/-- Witness for C5 at the spec's example 1.9995 s: the formatter yields
00:00:01,999 (not 00:00:02,000), and the C5 theorem applies there. -/
theorem C5_witness :
    format_srt_time (19995 / 10000) = ⟨0, 0, 1, 999⟩
    ∧ renderSrtTime (format_srt_time (19995 / 10000)) = "00:00:01,999"
    ∧ (format_srt_time (parseSrtTime (format_srt_time (19995 / 10000)))
          = format_srt_time (19995 / 10000)
        ∧ parseSrtTime (format_srt_time (19995 / 10000)) ≤ 19995 / 10000
        ∧ (19995 / 10000 : ℚ) - parseSrtTime (format_srt_time (19995 / 10000))
            < 1 / 1000) := by
  have hval : format_srt_time (19995 / 10000) = ⟨0, 0, 1, 999⟩ := by
    rw [format_srt_time_eq_srtOfMillis _ (by norm_num)]
    have h : ⌊(1000 : ℚ) * (19995 / 10000)⌋₊ = 1999 := by
      rw [Nat.floor_eq_iff (by positivity)]
      norm_num
    rw [h]
    rfl
  exact ⟨hval, by rw [hval]; rfl,
    C5_format_time_truncates_roundtrips (19995 / 10000) (by norm_num)⟩

/-- C6: any style name outside the closed set resolves to exactly the same
styling directive as resolving the name modern, and resolution is total
(never an error). -/
theorem C6_unknown_style_falls_back (name : String)
    (h1 : name ≠ "modern") (h2 : name ≠ "bold")
    (h3 : name ≠ "minimal") (h4 : name ≠ "gaming") :
    resolveStyle name = resolveStyle "modern" := by
  simp [resolveStyle, h1, h2, h3, h4]

/-- Witness for C6 at the concrete unknown name "fancy". -/
theorem C6_witness :
    resolveStyle "fancy" = resolveStyle "modern" :=
  C6_unknown_style_falls_back "fancy" (by decide) (by decide) (by decide)
    (by decide)

/-! #### Auto-generated cue timing -/

lemma autoWords_of_ne_nil (text : String) (h : pySplit text ≠ []) :
    autoWords text = pySplit text := by
  unfold autoWords
  rw [if_neg]
  simpa using h

lemma autoCues_getElem? (text : String) (d : ℚ) (i : ℕ)
    (hi : i < (autoWords text).length) :
    (autoCues text d)[i]? = some
      { start := (i : ℚ) * (d / ((autoWords text).length : ℚ))
        endTime := ((i : ℚ) + 1) * (d / ((autoWords text).length : ℚ))
        text := (autoWords text).getD i "" } := by
  unfold autoCues
  rw [List.getElem?_map, List.getElem?_enum, List.getElem?_eq_getElem hi]
  simp [List.getD_eq_getElem?_getD, List.getElem?_eq_getElem hi]

/-- C1: for a narration text with at least one whitespace token and a
positive total duration, cue `i` (0-based) is exactly
`start = i * (d / N)`, `end = (i+1) * (d / N)`, `text = token i`; hence the
first cue starts at 0, consecutive cues abut exactly, and the last cue ends
exactly at the total duration (so certainly within one millisecond of it). -/
theorem C1_auto_cue_timing (text : String) (d : ℚ) (_hd : 0 < d)
    (hN : pySplit text ≠ []) :
    (autoCues text d).length = (pySplit text).length
    ∧ (∀ i, i < (pySplit text).length →
        (autoCues text d)[i]? = some
          { start := (i : ℚ) * (d / ((pySplit text).length : ℚ))
            endTime := ((i : ℚ) + 1) * (d / ((pySplit text).length : ℚ))
            text := (pySplit text).getD i "" })
    ∧ ((autoCues text d)[0]?).map Cue.start = some 0
    ∧ (∀ i, i + 1 < (pySplit text).length →
        ((autoCues text d)[i]?).map Cue.endTime
          = ((autoCues text d)[i + 1]?).map Cue.start)
    ∧ ((autoCues text d)[(pySplit text).length - 1]?).map Cue.endTime
        = some d := by
  have hw := autoWords_of_ne_nil text hN
  have hNpos : 0 < (pySplit text).length := List.length_pos.mpr hN
  have hN0 : ((pySplit text).length : ℚ) ≠ 0 := by
    exact_mod_cast Nat.pos_iff_ne_zero.mp hNpos
  have helem : ∀ i, i < (pySplit text).length →
      (autoCues text d)[i]? = some
        { start := (i : ℚ) * (d / ((pySplit text).length : ℚ))
          endTime := ((i : ℚ) + 1) * (d / ((pySplit text).length : ℚ))
          text := (pySplit text).getD i "" } := by
    intro i hi
    have h := autoCues_getElem? text d i (by rw [hw]; exact hi)
    rwa [hw] at h
  refine ⟨?_, helem, ?_, ?_, ?_⟩
  · unfold autoCues
    rw [hw]
    simp
  · rw [helem 0 hNpos]
    simp
  · intro i hi
    rw [helem i (by omega), helem (i + 1) hi]
    simp only [Option.map_some']
    congr 1
    push_cast
    ring
  · rw [helem _ (by omega)]
    simp only [Option.map_some', Option.some.injEq]
    have hc : (((pySplit text).length - 1 : ℕ) : ℚ)
        = ((pySplit text).length : ℚ) - 1 := by
      have : 1 ≤ (pySplit text).length := hNpos
      push_cast [Nat.cast_sub this]
      ring
    show ((((pySplit text).length - 1 : ℕ) : ℚ) + 1)
        * (d / ((pySplit text).length : ℚ)) = d
    rw [hc, sub_add_cancel, mul_comm, div_mul_cancel₀ d hN0]

/-- Witness for C1 at the spec's end-to-end example: text "hello world",
total duration 2. -/
theorem C1_witness :
    (autoCues "hello world" 2).length = (pySplit "hello world").length
    ∧ (∀ i, i < (pySplit "hello world").length →
        (autoCues "hello world" 2)[i]? = some
          { start := (i : ℚ) * (2 / ((pySplit "hello world").length : ℚ))
            endTime := ((i : ℚ) + 1) * (2 / ((pySplit "hello world").length : ℚ))
            text := (pySplit "hello world").getD i "" })
    ∧ ((autoCues "hello world" 2)[0]?).map Cue.start = some 0
    ∧ (∀ i, i + 1 < (pySplit "hello world").length →
        ((autoCues "hello world" 2)[i]?).map Cue.endTime
          = ((autoCues "hello world" 2)[i + 1]?).map Cue.start)
    ∧ ((autoCues "hello world" 2)[(pySplit "hello world").length - 1]?).map
        Cue.endTime = some 2 :=
  C1_auto_cue_timing "hello world" 2 (by decide) (by decide)

/-- C9: a narration text with zero whitespace tokens is replaced by the
single empty token, so for any positive duration the builder yields exactly
one cue spanning `[0, d]` with empty text — the divisor is 1, never 0. -/
theorem C9_empty_text_single_cue (text : String) (d : ℚ) (_hd : 0 < d)
    (h : pySplit text = []) :
    autoWords text = [""]
    ∧ autoCues text d = [{ start := 0, endTime := d, text := "" }] := by
  have hw : autoWords text = [""] := by
    unfold autoWords
    rw [h]
    rfl
  refine ⟨hw, ?_⟩
  unfold autoCues
  rw [hw]
  simp [List.enum, List.enumFrom, Cue.mk.injEq]

/-- Witness for C9 at the concrete whitespace-only text " " and duration 2. -/
theorem C9_witness :
    autoWords " " = [""]
    ∧ autoCues " " 2 = [{ start := 0, endTime := 2, text := "" }] :=
  C9_empty_text_single_cue " " 2 (by decide) (by decide)

/-! #### Explicit cue lists are serialized without validation -/

/-- Counterexample for C2: the validator that the spec prescribes rejects
this list (whose cue at index 2 has `end <= start`) naming index 2, but
`_generate_subtitles_from_list` performs no validation: it serializes all
three cues and raises nothing. -/
theorem C2_counterexample :
    validateCuesSpec
      [{ start := 0, endTime := 1, text := "a" }
      , { start := 1, endTime := 2, text := "b" }
      , { start := 5, endTime := 3, text := "c" }] = .error 2
    ∧ generate_subtitles_from_list
        [{ start := 0, endTime := 1, text := "a" }
        , { start := 1, endTime := 2, text := "b" }
        , { start := 5, endTime := 3, text := "c" }]
      = srtBlock 1 { start := 0, endTime := 1, text := "a" } ++ "\n"
        ++ srtBlock 2 { start := 1, endTime := 2, text := "b" } ++ "\n"
        ++ srtBlock 3 { start := 5, endTime := 3, text := "c" } :=
  ⟨by decide, rfl⟩

/-- C2 as amended: supplying an explicit cue list performs no validation —
even when the cue at index 2 has `end <= start`, every cue is written
through, in order, with 1-based indices, and no error of any kind is
raised (the builder is a total function into the serialized string). -/
theorem C2_no_validation (c0 c1 c2 : Cue) (_h : c2.endTime ≤ c2.start) :
    generate_subtitles_from_list [c0, c1, c2]
      = srtBlock 1 c0 ++ "\n" ++ srtBlock 2 c1 ++ "\n" ++ srtBlock 3 c2 :=
  rfl

/-- Witness for C2's amended theorem at the concrete invalid list. -/
theorem C2_witness :
    generate_subtitles_from_list
      [{ start := 0, endTime := 1, text := "a" }
      , { start := 1, endTime := 2, text := "b" }
      , { start := 5, endTime := 3, text := "c" }]
      = srtBlock 1 { start := 0, endTime := 1, text := "a" } ++ "\n"
        ++ srtBlock 2 { start := 1, endTime := 2, text := "b" } ++ "\n"
        ++ srtBlock 3 { start := 5, endTime := 3, text := "c" } :=
  C2_no_validation _ _ _ (by decide)

/-! #### Filter graph stage order -/

/-- Counterexample for C3: at dim factor 1, caption file "subs.srt", the
modern style and duration 2, the composed chain differs from the spec's
prescribed order whether zoom is taken as disabled (the code puts the
brightness stage before pixel-format normalization, the spec after) or as
enabled (the code never emits a zoom stage at all). -/
theorem C3_counterexample :
    filterStages 1 "subs.srt" modernStyle
      ≠ filterStagesSpec 1 false 2 "subs.srt" modernStyle
    ∧ filterStages 1 "subs.srt" modernStyle
      ≠ filterStagesSpec 1 true 2 "subs.srt" modernStyle := by
  constructor <;> simp [filterStages, filterStagesSpec]

/-- C3 as amended: for every dim factor the composed chain is exactly
scale-up, center-crop, brightness adjustment, pixel-format normalization,
caption burn-in — brightness precedes the format stage, no zoom stage ever
occurs for any setting, the caption burn-in is the terminal stage, and its
output label is the one the encoder maps to the output video. -/
theorem C3_stage_order (background_opacity : ℚ) (srt_path force_style : String) :
    filterStages background_opacity srt_path force_style
      = [ Stage.scale 1080 1920 true
        , Stage.crop 1080 1920
        , Stage.eqBrightness (-((1 - background_opacity) * 3 / 10))
        , Stage.format "yuv420p"
        , Stage.subtitles srt_path force_style ]
    ∧ (∀ ceiling frames, Stage.zoompan ceiling frames
        ∉ filterStages background_opacity srt_path force_style)
    ∧ (filterStages background_opacity srt_path force_style).getLast?
        = some (Stage.subtitles srt_path force_style)
    ∧ composedOutputLabel = mappedVideoLabel := by
  refine ⟨rfl, ?_, rfl, rfl⟩
  intro ceiling frames
  simp [filterStages]

/-- Witness for C3's amended theorem at dim factor 1 and the modern style. -/
theorem C3_witness :
    filterStages 1 "subs.srt" modernStyle
      = [ Stage.scale 1080 1920 true
        , Stage.crop 1080 1920
        , Stage.eqBrightness (-((1 - 1) * 3 / 10))
        , Stage.format "yuv420p"
        , Stage.subtitles "subs.srt" modernStyle ]
    ∧ (∀ ceiling frames, Stage.zoompan ceiling frames
        ∉ filterStages 1 "subs.srt" modernStyle)
    ∧ (filterStages 1 "subs.srt" modernStyle).getLast?
        = some (Stage.subtitles "subs.srt" modernStyle)
    ∧ composedOutputLabel = mappedVideoLabel :=
  C3_stage_order 1 "subs.srt" modernStyle

/-! #### Background selection errors -/

/-- Counterexample for C4: a missing directory and a directory holding only
`notes.txt` raise the same Python exception class, `FileNotFoundError` —
there is no distinct `EmptyLibraryError` (nor `MissingAssetError`) type,
only different message strings. -/
theorem C4_counterexample :
    pick_random_video none 0
      = .error (.fileNotFound "Video directory \x27videos\x27 does not exist.")
    ∧ pick_random_video (some ["notes.txt"]) 0
      = .error (.fileNotFound "No video files found in \x27videos\x27.")
    ∧ (PyError.fileNotFound
        "Video directory \x27videos\x27 does not exist.").className
      = (PyError.fileNotFound "No video files found in \x27videos\x27.").className := by
  refine ⟨rfl, by decide, rfl⟩

/-- C4 as amended: a missing directory raises `FileNotFoundError` with the
missing-directory message; an existing directory whose listing has no file
ending (case-insensitively) in .mp4/.mov/.mkv — e.g. one holding only a
.txt file — raises `FileNotFoundError` too, distinguished only by its
message; otherwise the call returns `videos/<c>` for a candidate `c` drawn
from the filtered listing by the `random.choice` oracle. -/
theorem C4_background_selection (files : List String) (r : ℕ) :
    pick_random_video none r
      = .error (.fileNotFound "Video directory \x27videos\x27 does not exist.")
    ∧ ((files.filter isVideoFile).isEmpty = true →
        pick_random_video (some files) r
          = .error (.fileNotFound "No video files found in \x27videos\x27."))
    ∧ ((files.filter isVideoFile).isEmpty = false →
        ∃ c, c ∈ files.filter isVideoFile
          ∧ pick_random_video (some files) r = .ok ("videos/" ++ c)) := by
  refine ⟨rfl, ?_, ?_⟩
  · intro h
    simp only [pick_random_video]
    rw [if_pos h]
  · intro h
    refine ⟨(files.filter isVideoFile).getD
      (r % (files.filter isVideoFile).length) "", ?_, ?_⟩
    · have hlen : 0 < (files.filter isVideoFile).length := by
        cases hfe : files.filter isVideoFile with
        | nil => rw [hfe] at h; simp at h
        | cons a l => simp [hfe]
      have hlt : r % (files.filter isVideoFile).length
          < (files.filter isVideoFile).length := Nat.mod_lt _ hlen
      rw [List.getD_eq_getElem _ _ hlt]
      exact List.getElem_mem hlt
    · simp only [pick_random_video]
      rw [if_neg]
      rw [h]
      exact Bool.false_ne_true

/-- Witness for C4 at concrete listings: a directory holding `clip.MP4` and
`notes.txt` has a non-empty case-insensitive filter result, and the call
returns a chosen candidate; the missing-directory branch errors. -/
theorem C4_witness :
    pick_random_video none 0
      = .error (.fileNotFound "Video directory \x27videos\x27 does not exist.")
    ∧ ∃ c, c ∈ (["clip.MP4", "notes.txt"] : List String).filter isVideoFile
        ∧ pick_random_video (some ["clip.MP4", "notes.txt"]) 0
          = .ok ("videos/" ++ c) :=
  ⟨(C4_background_selection ["clip.MP4", "notes.txt"] 0).1,
    (C4_background_selection ["clip.MP4", "notes.txt"] 0).2.2 (by decide)⟩


/-! #### Temporary caption file lifecycle -/

lemma outputPath_ne_srtPath (w : World) : outputPath w ≠ srtPath w := by
  intro h
  have hl := congrArg String.length h
  unfold outputPath srtPath at hl
  simp only [String.length_append,
    show ("outputs/final_" : String).length = 14 from rfl,
    show ("outputs/subtitles_" : String).length = 18 from rfl,
    show (".mp4" : String).length = 4 from rfl,
    show (".srt" : String).length = 4 from rfl] at hl
  omega

lemma srtPath_inj_toString (w1 w2 : World)
    (h : srtPath w1 = srtPath w2) : toString w1.now = toString w2.now := by
  unfold srtPath at h
  have hd := congrArg String.data h
  simp only [String.data_append, List.append_assoc] at hd
  have h1 := List.append_cancel_left hd
  have h2 := List.append_cancel_right h1
  exact String.ext h2

/-- C7: when a composition request reaches the point of creating the
temporary caption file (audio present, inputs pass the dispatch, background
pick and probe succeed), the file exists when control leaves the `try` body
on encoder failure, yet after the handler it is gone and the handler
re-raises exactly the encoder's `CalledProcessError`, message unmodified;
on the success path the file is gone as well — on no exit path after
creation does the caption file survive. -/
theorem C7_srt_cleanup (text : Option String) (subtitles : Option (List Cue))
    (w : World) (files0 : List String)
    (ha : w.audioExists = true)
    (hv : ∃ v, pick_random_video w.videoDir w.rand = .ok v)
    (hp : ∃ dur, w.probe = .ok dur)
    (hsub : (∃ c cs, subtitles = some (c :: cs))
      ∨ ((subtitles = none ∨ subtitles = some []) ∧ ∃ t, text = some t))
    (hfiles : srtPath w ∉ files0) :
    srtPath w ∉ (create_video_with_audio text subtitles w files0).2
    ∧ (∀ msg, w.encodeErr = some msg →
        createBody text subtitles w files0
          = (.error (.calledProcessError msg), srtPath w :: files0)
        ∧ create_video_with_audio text subtitles w files0
          = (.error (.calledProcessError msg), files0))
    ∧ (w.encodeErr = none →
        create_video_with_audio text subtitles w files0
          = (.ok (outputPath w), outputPath w :: files0)) := by
  obtain ⟨v, hv⟩ := hv
  obtain ⟨dur, hp⟩ := hp
  have hbody : createBody text subtitles w files0
      = runEncoder w (srtPath w :: files0) := by
    rcases hsub with ⟨c, cs, rfl⟩ | ⟨hs, t, rfl⟩
    · unfold createBody
      rw [ha, hv, hp]
      simp
    · rcases hs with rfl | rfl <;>
        · unfold createBody
          rw [ha, hv, hp]
          simp
  have hne := outputPath_ne_srtPath w
  cases he : w.encodeErr with
  | some msg =>
    have hrun : runEncoder w (srtPath w :: files0)
        = (.error (.calledProcessError msg), srtPath w :: files0) := by
      unfold runEncoder
      rw [he]
    have hbody2 := hbody.trans hrun
    have hcreate : create_video_with_audio text subtitles w files0
        = (.error (.calledProcessError msg), files0) := by
      unfold create_video_with_audio
      rw [hbody2]
      simp [List.erase_cons_head]
    refine ⟨?_, ?_, ?_⟩
    · rw [hcreate]
      exact hfiles
    · intro m hm
      cases hm
      exact ⟨hbody2, hcreate⟩
    · intro hn
      cases hn
  | none =>
    have hrun : runEncoder w (srtPath w :: files0)
        = (.ok (outputPath w), outputPath w :: files0) := by
      unfold runEncoder
      rw [he]
      simp [List.erase_cons, hne]
    have hbody2 := hbody.trans hrun
    have hcreate : create_video_with_audio text subtitles w files0
        = (.ok (outputPath w), outputPath w :: files0) := by
      unfold create_video_with_audio
      rw [hbody2]
    refine ⟨?_, ?_, fun _ => hcreate⟩
    · rw [hcreate]
      intro hmem
      rcases List.mem_cons.mp hmem with heq | hin
      · exact hne heq.symm
      · exact hfiles hin
    · intro m hm
      cases hm

/-- Witness for C7: a concrete request (auto-subtitle path, text "hi") in
the world `wBoom` where the encoder fails: the caption file is created
inside the `try` body, the surfaced error is the encoder's own diagnostic,
and the final file set is clean. -/
theorem C7_witness :
    srtPath wBoom ∉ (create_video_with_audio (some "hi") none wBoom []).2
    ∧ createBody (some "hi") none wBoom []
        = (.error (.calledProcessError "boom"), srtPath wBoom :: [])
    ∧ create_video_with_audio (some "hi") none wBoom []
        = (.error (.calledProcessError "boom"), []) :=
  ⟨(C7_srt_cleanup (some "hi") none wBoom [] rfl
      ⟨"videos/clip.mp4", by decide⟩ ⟨2, rfl⟩
      (Or.inr ⟨Or.inl rfl, "hi", rfl⟩) (List.not_mem_nil _)).1,
    (C7_srt_cleanup (some "hi") none wBoom [] rfl
      ⟨"videos/clip.mp4", by decide⟩ ⟨2, rfl⟩
      (Or.inr ⟨Or.inl rfl, "hi", rfl⟩) (List.not_mem_nil _)).2.1 "boom" rfl⟩

/-- C10: for `text = None` together with `subtitles = []`, the both-`None`
validation check passes (the empty list is not `None`), the empty list is
falsy so the auto branch runs, and `text.split()` on `None` raises
`AttributeError` — an unhandled exception type, not the `ValueError` used
for input validation. -/
theorem C10_none_text_empty_list (w : World) (files0 : List String)
    (ha : w.audioExists = true)
    (hv : ∃ v, pick_random_video w.videoDir w.rand = .ok v)
    (hp : ∃ dur, w.probe = .ok dur)
    (hfiles : srtPath w ∉ files0) :
    create_video_with_audio none (some []) w files0
      = (.error (.attributeError
          "\x27NoneType\x27 object has no attribute \x27split\x27"), files0)
    ∧ (PyError.attributeError
        "\x27NoneType\x27 object has no attribute \x27split\x27").className
      = "AttributeError"
    ∧ ∀ m, (PyError.attributeError
        "\x27NoneType\x27 object has no attribute \x27split\x27")
          ≠ .valueError m := by
  obtain ⟨v, hv⟩ := hv
  obtain ⟨dur, hp⟩ := hp
  have hbody : createBody none (some []) w files0
      = (.error (.attributeError
          "\x27NoneType\x27 object has no attribute \x27split\x27"), files0) := by
    unfold createBody
    rw [ha, hv, hp]
    simp
  refine ⟨?_, rfl, fun m h => by cases h⟩
  unfold create_video_with_audio
  rw [hbody]
  simp [hfiles]

/-- Witness for C10 at the concrete world `wOk`. -/
theorem C10_witness :
    create_video_with_audio none (some []) wOk []
      = (.error (.attributeError
          "\x27NoneType\x27 object has no attribute \x27split\x27"), [])
    ∧ (PyError.attributeError
        "\x27NoneType\x27 object has no attribute \x27split\x27").className
      = "AttributeError"
    ∧ ∀ m, (PyError.attributeError
        "\x27NoneType\x27 object has no attribute \x27split\x27")
          ≠ .valueError m :=
  C10_none_text_empty_list wOk [] rfl ⟨"videos/clip.mp4", by decide⟩
    ⟨2, rfl⟩ (List.not_mem_nil _)

/-! #### Temporary caption file naming across requests -/

/-- Counterexample for C8: `wReqA` and `wReqB` are two distinct concurrent
requests — different background listing, random draw, probe result and
encoder outcome — whose calls to `int(time.time())` fall in the same
second, and they receive the **same** temporary caption file name: the
files collide, and one request's cleanup deletes the other's file.  (The
name depends on nothing but the second-resolution timestamp; the narration
audio path is the fixed constant `final.wav` for every request, so requests
cannot even have distinct audio paths.) -/
theorem C8_counterexample :
    wReqA ≠ wReqB ∧ srtPath wReqA = srtPath wReqB :=
  ⟨by decide, rfl⟩

/-- C8 as amended: the temporary caption file name is a function of the
second-resolution timestamp alone — two requests in the same second share
one name (and hence collide), while requests whose timestamps render to
different numerals get distinct names. -/
theorem C8_srt_name_by_timestamp (w1 w2 : World) :
    (w1.now = w2.now → srtPath w1 = srtPath w2)
    ∧ (toString w1.now ≠ toString w2.now → srtPath w1 ≠ srtPath w2) := by
  constructor
  · intro h
    unfold srtPath
    rw [h]
  · intro h hq
    exact h (srtPath_inj_toString w1 w2 hq)

/-- Witness for C8's amended theorem: `wT100` and `wT100b` share second 100
— same name; `wT100` vs `wT101` (seconds 100 vs 101) — different names. -/
theorem C8_witness :
    srtPath wT100 = srtPath wT100b ∧ srtPath wT100 ≠ srtPath wT101 :=
  ⟨(C8_srt_name_by_timestamp wT100 wT100b).1 rfl,
    (C8_srt_name_by_timestamp wT100 wT101).2 (by decide)⟩
